import Mathlib

/-!
Verification of the perception-action bridge of the leopenpi repository.

The development shallowly embeds the Python sources:
  * `src/utils/robot_wrapper.py`  — joint-space mapping (`RobotWrapper`):
    `_get_observation`, `apply_action` (delta actions with gain 0.25);
  * `so101_pi/utils/video_handler.py` — frame buffer (`VideoHandler`):
    `get_frames`, the reaper body of `_cleanup_loop`;
  * `src/robot_environment.py` — observation assembly
    (`RobotEnvironment.get_observation`, `_pad`);
  * `so101_pi/utils/configurations.py` — `Joint`, `RobotConfiguration`
    and its `__post_init__`.

Python floats are modelled as exact rationals (the constants involved,
such as the delta gain 0.25, are exactly representable), dictionaries as
association lists, numpy arrays as lists, and raised exceptions as
`Except` errors.
-/

namespace Leopenpi

/-- A frame held by the video buffer; its pixel contents are irrelevant to the
buffered-sequence properties, so frames are identified by an opaque token. -/
abbrev Frame := Nat

/-- Error taxonomy of the bridge.  Each constructor corresponds to one raise
site in the Python sources: `ShapeMismatch` to the action-shape `ValueError`
in `RobotWrapper.apply_action` (it records the offending length),
`MissingJointKey` to the `ValueError` in `RobotWrapper._get_observation`
(it records the missing key), `NotConnected` to the `RuntimeError` in
`RobotWrapper._get_observation`, and `IndexOverrun` to the numpy
`IndexError` that `action[i]` raises when the joint ordering is longer than
the action vector. -/
inductive RobotError where
  | ShapeMismatch (got : Nat)
  | MissingJointKey (key : String)
  | NotConnected
  | IndexOverrun
deriving DecidableEq

/-- `so101_pi/utils/configurations.py`, `Joint`: one joint descriptor. -/
structure Joint where
  name : String
  min_limit : ℚ
  max_limit : ℚ
  home : Option ℚ := none
deriving DecidableEq

/-- `so101_pi/utils/configurations.py`, `RobotConfiguration` after
`__post_init__` has run: the primary joints, the gripper, and the derived
`all_joints` ordering. -/
structure RobotConfiguration where
  port : String
  id : String
  joints : List Joint
  gripper : Joint
  all_joints : List Joint
deriving DecidableEq

/-- The default joint list installed by `RobotConfiguration.__post_init__`
when `joints is None`. -/
def defaultJoints : List Joint :=
  [ ⟨"shoulder_pan", -1, 1, none⟩,
    ⟨"shoulder_lift", -1, 1, none⟩,
    ⟨"elbow_flex", -1, 1, none⟩,
    ⟨"wrist_flex", -1, 1, none⟩,
    ⟨"wrist_roll", -1, 1, none⟩ ]

/-- The default gripper installed by `RobotConfiguration.__post_init__`
when `gripper is None`. -/
def defaultGripper : Joint := ⟨"gripper", -1, 1, none⟩

/-- `RobotConfiguration.__post_init__`: fill in the default joints and
gripper when the corresponding field is `None`, then set
`all_joints = joints + [gripper]`.  The Python code performs no validation
of the joint data. -/
def mkRobotConfiguration (port : String) (id : String)
    (joints : Option (List Joint)) (gripper : Option Joint) : RobotConfiguration :=
  let js := joints.getD defaultJoints
  let g := gripper.getD defaultGripper
  { port := port, id := id, joints := js, gripper := g, all_joints := js ++ [g] }

/-- `np.clip(x, lo, hi)`, which numpy documents as
`min(max(x, lo), hi)`. -/
def npClip (x lo hi : ℚ) : ℚ := min (max x lo) hi

/-- The observation key of a joint: `f"{joint.name}.pos"`. -/
def jointKey (j : Joint) : String := j.name ++ ".pos"

/-- `RobotWrapper._get_observation`, the key-collection loop: walk the
descriptor list in order, look each expected key up in the raw observation
map, and raise at the first missing key. -/
def readObs (obs : List (String × ℚ)) : List Joint → Except RobotError (List ℚ)
  | [] => .ok []
  | j :: js =>
    match obs.lookup (jointKey j) with
    | none => .error (.MissingJointKey (jointKey j))
    | some v =>
      match readObs obs js with
      | .error e => .error e
      | .ok vs => .ok (v :: vs)

/-- `RobotWrapper._get_observation` including its connection guard: a
`RuntimeError` is raised before any key is consulted when the robot is not
connected. -/
def getObservation (is_connected : Bool) (obs : List (String × ℚ))
    (joints : List Joint) : Except RobotError (List ℚ) :=
  if is_connected then readObs obs joints else .error .NotConnected

/-- The body of the goal-position loop of `RobotWrapper.apply_action`:
for each joint, `delta = action[i] * (max_limit - min_limit) * 0.25`,
`new = current[i] + delta`, clipped to the joint's limits and keyed by
`f"{joint.name}.pos"`.  Running off the end of the action vector is the
numpy `IndexError`. -/
def computeGoals : List Joint → List ℚ → List ℚ → Except RobotError (List (String × ℚ))
  | [], _, _ => .ok []
  | _ :: _, [], _ => .error .IndexOverrun
  | _ :: _, _ :: _, [] => .error .IndexOverrun
  | j :: js, c :: cs, a :: rest =>
    match computeGoals js cs rest with
    | .error e => .error e
    | .ok tail =>
      .ok ((jointKey j,
            npClip (c + a * (j.max_limit - j.min_limit) * (25 / 100))
              j.min_limit j.max_limit) :: tail)

/-- `RobotWrapper.apply_action`: reject any action whose length is not
exactly 6; skip (returning normally, dispatching nothing — modelled as
`ok none`) when the robot is not connected; otherwise read the current
positions of `all_joints` from the raw observation map and dispatch the
computed goal map (modelled as `ok (some goals)`). -/
def apply_action (cfg : RobotConfiguration) (is_connected : Bool)
    (obs : List (String × ℚ)) (action : List ℚ) :
    Except RobotError (Option (List (String × ℚ))) :=
  if action.length ≠ 6 then .error (.ShapeMismatch action.length)
  else if is_connected = false then .ok none
  else
    match getObservation is_connected obs cfg.all_joints with
    | .error e => .error e
    | .ok current =>
      match computeGoals cfg.all_joints current action with
      | .error e => .error e
      | .ok goals => .ok (some goals)

/-- Specification-side statement of the delta-action formula of §4.2 of the
spec: the component is a fraction of the joint's total range
`max_limit − min_limit`, scaled by the configured gain 0.25, added to the
current position, then clipped to the same bounds. -/
def specGoal (j : Joint) (c a : ℚ) : ℚ :=
  npClip (c + a * (j.max_limit - j.min_limit) * (1 / 4)) j.min_limit j.max_limit

/-- Specification-side goal map: one `name.pos ↦ specGoal` entry per joint,
paired positionally with the current positions and the action vector. -/
def specGoalList (joints : List Joint) (current action : List ℚ) :
    List (String × ℚ) :=
  List.zipWith (fun (j : Joint) (ca : ℚ × ℚ) => (jointKey j, specGoal j ca.1 ca.2))
    joints (current.zip action)

/-- The Python slice `lst[-n:]` for a non-negative count `n`: the whole list
when `n = 0`, otherwise the last `n` elements. -/
def sliceFromEnd (l : List α) (n : Nat) : List α :=
  if n = 0 then l else l.drop (l.length - n)

/-- `VideoHandler.get_frames`: an empty list when fewer than `num_frames`
frames are buffered, otherwise the slice `frame_buffer[-num_frames:]`. -/
def get_frames (buffer : List α) (num_frames : Nat) : List α :=
  if buffer.length < num_frames then [] else sliceFromEnd buffer num_frames

/-- One pass of the reaper body of `VideoHandler._cleanup_loop`: when the
buffered count exceeds the cleanup threshold, delete the oldest
`count − threshold` frames; otherwise leave the buffer alone. -/
def cleanup_pass (cleanup_threshold : Nat) (buffer : List α) : List α :=
  if cleanup_threshold < buffer.length then
    buffer.drop (buffer.length - cleanup_threshold)
  else buffer

/-- `RobotEnvironment._pad`: truncate to `size` when the vector is at least
that long, otherwise append zeros up to `size`. -/
def pad (observation : List ℚ) (size : Nat) : List ℚ :=
  if size ≤ observation.length then observation.take size
  else observation ++ List.replicate (size - observation.length) 0

/-- The observation record assembled by `RobotEnvironment.get_observation`:
the task prompt, the gripper position vector, the (padded) joint position
vector, and one frame per configured camera. -/
structure ObservationRecord where
  prompt : String
  gripper_position : List ℚ
  joint_position : List ℚ
  frames : List (String × Frame)
deriving DecidableEq

/-- `RobotEnvironment.get_observation`: assemble the prompt, the gripper
vector (via `_get_observation` on `[gripper]`), the joint vector (via
`_get_observation` on `joints`, padded to 7), and one frame per camera,
keyed `observation/{name}`.  The per-camera captures are passed in as the
frames the handlers return. -/
def get_observation (cfg : RobotConfiguration) (prompt : String)
    (obs : List (String × ℚ)) (cameras : List (String × Frame)) :
    Except RobotError ObservationRecord :=
  match readObs obs [cfg.gripper] with
  | .error e => .error e
  | .ok g =>
    match readObs obs cfg.joints with
    | .error e => .error e
    | .ok j =>
      .ok { prompt := prompt,
            gripper_position := g,
            joint_position := pad j 7,
            frames := cameras.map (fun nf => ("observation/" ++ nf.1, nf.2)) }

/-- Modelled from the spec: `write_absolute(action_vector, joint_order)` is
absent from the sources under `src/` (only the delta semantics of
`RobotWrapper.apply_action` is implemented); per §4.2 of the spec it fails
with `ShapeMismatch` when the vector length differs from the joint order's
length, and otherwise clips each component to its descriptor's
`[min_limit, max_limit]`, producing a name→value map. -/
def write_absolute (action : List ℚ) (joint_order : List Joint) :
    Except RobotError (List (String × ℚ)) :=
  if action.length ≠ joint_order.length then .error (.ShapeMismatch action.length)
  else .ok (List.zipWith
    (fun (a : ℚ) (j : Joint) => (j.name, npClip a j.min_limit j.max_limit))
    action joint_order)

/-- Decidable equality on `Except`, so that concrete runs of the embedded
operations can be checked by `decide`. -/
instance {e a : Type} [DecidableEq e] [DecidableEq a] : DecidableEq (Except e a) := fun x y =>
  match x, y with
  | .ok v, .ok w =>
    if h : v = w then .isTrue (by rw [h]) else .isFalse (fun hc => by cases hc; exact h rfl)
  | .error v, .error w =>
    if h : v = w then .isTrue (by rw [h]) else .isFalse (fun hc => by cases hc; exact h rfl)
  | .ok _, .error _ => .isFalse (fun hc => by cases hc)
  | .error _, .ok _ => .isFalse (fun hc => by cases hc)

/-! ### Helper lemmas -/

theorem pad_length (v : List ℚ) (size : Nat) : (pad v size).length = size := by
  unfold pad
  split
  · rename_i h
    simp only [List.length_take]
    omega
  · rename_i h
    simp only [List.length_append, List.length_replicate]
    omega

theorem zipWith_get {A B C : Type} (f : A → B → C) :
    ∀ (l1 : List A) (l2 : List B) (i : Nat) (h1 : i < l1.length)
      (h2 : i < l2.length) (h3 : i < (List.zipWith f l1 l2).length),
      (List.zipWith f l1 l2).get ⟨i, h3⟩ = f (l1.get ⟨i, h1⟩) (l2.get ⟨i, h2⟩) := by
  intro l1
  induction l1 with
  | nil => intro l2 i h1; exact absurd h1 (Nat.not_lt_zero i)
  | cons x xs ih =>
    intro l2 i h1 h2 h3
    cases l2 with
    | nil => exact absurd h2 (Nat.not_lt_zero i)
    | cons y ys =>
      cases i with
      | zero => rfl
      | succ k =>
        exact ih ys k (Nat.lt_of_succ_lt_succ h1) (Nat.lt_of_succ_lt_succ h2)
          (Nat.lt_of_succ_lt_succ (by simpa using h3))

theorem npClip_le_right (x lo hi : ℚ) : npClip x lo hi ≤ hi :=
  min_le_right _ _

theorem le_npClip (x lo hi : ℚ) (h : lo ≤ hi) : lo ≤ npClip x lo hi :=
  le_min (le_max_right _ _) h

theorem npClip_of_mem (x lo hi : ℚ) (h1 : lo ≤ x) (h2 : x ≤ hi) :
    npClip x lo hi = x := by
  unfold npClip
  rw [max_eq_left h1, min_eq_left h2]

theorem specGoal_zero (j : Joint) (c : ℚ) :
    specGoal j c 0 = npClip c j.min_limit j.max_limit := by
  unfold specGoal
  norm_num

theorem readObs_ok_length {obs : List (String × ℚ)} :
    ∀ {joints : List Joint} {v : List ℚ}, readObs obs joints = .ok v →
      v.length = joints.length := by
  intro joints
  induction joints with
  | nil => intro v h; cases h; rfl
  | cons j js ih =>
    intro v h
    unfold readObs at h
    cases hl : obs.lookup (jointKey j) with
    | none => rw [hl] at h; cases h
    | some x =>
      rw [hl] at h
      cases hr : readObs obs js with
      | error e => rw [hr] at h; cases h
      | ok vs =>
        rw [hr] at h
        cases h
        simp [ih hr]

theorem readObs_ok_get {obs : List (String × ℚ)} :
    ∀ {joints : List Joint} {v : List ℚ}, readObs obs joints = .ok v →
      ∀ (i : Nat) (hi : i < joints.length) (hv : i < v.length),
        obs.lookup (jointKey (joints.get ⟨i, hi⟩)) = some (v.get ⟨i, hv⟩) := by
  intro joints
  induction joints with
  | nil => intro v _ i hi; exact absurd hi (Nat.not_lt_zero i)
  | cons j js ih =>
    intro v h i hi hv
    unfold readObs at h
    cases hl : obs.lookup (jointKey j) with
    | none => rw [hl] at h; cases h
    | some x =>
      rw [hl] at h
      cases hr : readObs obs js with
      | error e => rw [hr] at h; cases h
      | ok vs =>
        rw [hr] at h
        cases h
        cases i with
        | zero => simpa using hl
        | succ k =>
          exact ih hr k (Nat.lt_of_succ_lt_succ hi) (Nat.lt_of_succ_lt_succ hv)

theorem readObs_ok_of_keys {obs : List (String × ℚ)} :
    ∀ {joints : List Joint},
      (∀ j ∈ joints, ∃ x, obs.lookup (jointKey j) = some x) →
      ∃ v, readObs obs joints = .ok v := by
  intro joints
  induction joints with
  | nil => intro _; exact ⟨[], rfl⟩
  | cons j js ih =>
    intro h
    obtain ⟨x, hx⟩ := h j (List.mem_cons_self j js)
    obtain ⟨vs, hvs⟩ := ih (fun j2 hj2 => h j2 (List.mem_cons_of_mem j hj2))
    exact ⟨x :: vs, by unfold readObs; rw [hx, hvs]⟩

theorem readObs_error_is_missing {obs : List (String × ℚ)} :
    ∀ {joints : List Joint} {e : RobotError}, readObs obs joints = .error e →
      ∃ k, e = .MissingJointKey k := by
  intro joints
  induction joints with
  | nil => intro e h; cases h
  | cons j js ih =>
    intro e h
    unfold readObs at h
    cases hl : obs.lookup (jointKey j) with
    | none => rw [hl] at h; cases h; exact ⟨jointKey j, rfl⟩
    | some x =>
      rw [hl] at h
      cases hr : readObs obs js with
      | error e2 => rw [hr] at h; cases h; exact ih hr
      | ok vs => rw [hr] at h; cases h

theorem readObs_error_of_missing {obs : List (String × ℚ)} :
    ∀ {joints : List Joint}, (∃ j ∈ joints, obs.lookup (jointKey j) = none) →
      ∃ k, readObs obs joints = .error (.MissingJointKey k) := by
  intro joints
  induction joints with
  | nil => rintro ⟨j, hj, _⟩; cases hj
  | cons j js ih =>
    rintro ⟨j2, hj2, hnone⟩
    cases hl : obs.lookup (jointKey j) with
    | none => exact ⟨jointKey j, by unfold readObs; rw [hl]⟩
    | some x =>
      rcases List.mem_cons.mp hj2 with h | h
      · subst h; rw [hl] at hnone; cases hnone
      · obtain ⟨k, hk⟩ := ih ⟨j2, h, hnone⟩
        exact ⟨k, by unfold readObs; rw [hl, hk]⟩

theorem computeGoals_error_is_overrun :
    ∀ {joints : List Joint} {current action : List ℚ} {e : RobotError},
      computeGoals joints current action = .error e → e = .IndexOverrun := by
  intro joints
  induction joints with
  | nil => intro current action e h; cases h
  | cons j js ih =>
    intro current action e h
    cases current with
    | nil => cases h; rfl
    | cons c cs =>
      cases action with
      | nil => cases h; rfl
      | cons a rest =>
        unfold computeGoals at h
        cases hr : computeGoals js cs rest with
        | error e2 => rw [hr] at h; cases h; exact ih hr
        | ok tail => rw [hr] at h; cases h

theorem computeGoals_eq_spec :
    ∀ {joints : List Joint} {current action : List ℚ},
      joints.length ≤ current.length → joints.length ≤ action.length →
      computeGoals joints current action = .ok (specGoalList joints current action) := by
  intro joints
  induction joints with
  | nil => intro current action _ _; rfl
  | cons j js ih =>
    intro current action hc ha
    cases current with
    | nil => exact absurd hc (by simp)
    | cons c cs =>
      cases action with
      | nil => exact absurd ha (by simp)
      | cons a rest =>
        have hc2 : js.length ≤ cs.length := Nat.le_of_succ_le_succ (by simpa using hc)
        have ha2 : js.length ≤ rest.length := Nat.le_of_succ_le_succ (by simpa using ha)
        unfold computeGoals
        rw [ih hc2 ha2]
        unfold specGoalList specGoal
        simp only [List.zip_cons_cons, List.zipWith_cons_cons]
        norm_num

/-! ### Claim theorems -/

/-- Claim C3: for every list of N joint descriptors and every raw position
map that contains the expected key (`name.pos`) for each descriptor,
`read` (`RobotWrapper._get_observation`) returns a vector of length N whose
i-th element equals the raw map's value for the i-th descriptor's name, in
the order of the descriptor list. -/
theorem read_returns_ordered_vector (joints : List Joint) (obs : List (String × ℚ))
    (h : ∀ j ∈ joints, (obs.lookup (jointKey j)).isSome) :
    ∃ v, readObs obs joints = .ok v ∧ v.length = joints.length ∧
      ∀ (i : Nat) (hi : i < joints.length) (hv : i < v.length),
        obs.lookup (jointKey (joints.get ⟨i, hi⟩)) = some (v.get ⟨i, hv⟩) := by
  obtain ⟨v, hv⟩ :=
    readObs_ok_of_keys (fun j hj => Option.isSome_iff_exists.mp (h j hj))
  exact ⟨v, hv, readObs_ok_length hv, readObs_ok_get hv⟩

/-- Witness for C3 on a concrete two-joint set and raw map. -/
theorem read_returns_ordered_vector_witness :
    (∀ j ∈ ([⟨"a", -1, 1, none⟩, ⟨"b", 0, 2, none⟩] : List Joint),
      (([("a.pos", (1 : ℚ)/2), ("b.pos", 1)]).lookup (jointKey j)).isSome) ∧
    (∃ v, readObs [("a.pos", (1 : ℚ)/2), ("b.pos", 1)]
        [⟨"a", -1, 1, none⟩, ⟨"b", 0, 2, none⟩] = .ok v ∧
      v.length = ([⟨"a", -1, 1, none⟩, ⟨"b", 0, 2, none⟩] : List Joint).length ∧
      ∀ (i : Nat) (hi : i < ([⟨"a", -1, 1, none⟩, ⟨"b", 0, 2, none⟩] : List Joint).length)
        (hv : i < v.length),
        ([("a.pos", (1 : ℚ)/2), ("b.pos", 1)]).lookup
            (jointKey (([⟨"a", -1, 1, none⟩, ⟨"b", 0, 2, none⟩] : List Joint).get ⟨i, hi⟩)) =
          some (v.get ⟨i, hv⟩)) :=
  ⟨by decide,
   read_returns_ordered_vector [⟨"a", -1, 1, none⟩, ⟨"b", 0, 2, none⟩]
     [("a.pos", (1 : ℚ)/2), ("b.pos", 1)] (by decide)⟩

/-- Claim C4: `read` (`RobotWrapper._get_observation`) fails with
`MissingJointKey` exactly when some descriptor's expected key is absent
from the raw map; when every expected key is present no such failure is
raised, and when one is absent the failure propagates (the result is the
error, no default is substituted). -/
theorem read_missing_key_failure (joints : List Joint) (obs : List (String × ℚ)) :
    (∃ k, readObs obs joints = .error (.MissingJointKey k)) ↔
      ∃ j ∈ joints, obs.lookup (jointKey j) = none := by
  constructor
  · rintro ⟨k, hk⟩
    by_contra hnone
    push_neg at hnone
    have hkeys : ∀ j ∈ joints, (obs.lookup (jointKey j)).isSome := by
      intro j hj
      exact Option.ne_none_iff_isSome.mp (hnone j hj)
    obtain ⟨v, hv⟩ :=
      readObs_ok_of_keys (fun j hj => Option.isSome_iff_exists.mp (hkeys j hj))
    rw [hv] at hk
    cases hk
  · exact readObs_error_of_missing

/-- Claim C10: for every action vector of valid shape (length 6), calling
`RobotWrapper.apply_action` while the robot is not connected returns
normally — no error — and dispatches nothing to the hardware (the result is
`ok none`: the action is skipped). -/
theorem apply_action_skips_when_disconnected (cfg : RobotConfiguration)
    (obs : List (String × ℚ)) (action : List ℚ) (h : action.length = 6) :
    apply_action cfg false obs action = .ok none := by
  unfold apply_action
  rw [if_neg (by simp [h])]
  rfl

/-- Witness for C10 on a concrete configuration and zero action. -/
theorem apply_action_skips_when_disconnected_witness :
    ([0, 0, 0, 0, 0, 0] : List ℚ).length = 6 ∧
    apply_action (mkRobotConfiguration "/dev/ttyACM0" "follower" none none) false []
      [0, 0, 0, 0, 0, 0] = .ok none :=
  ⟨by decide,
   apply_action_skips_when_disconnected (mkRobotConfiguration "/dev/ttyACM0" "follower" none none)
     [] [0, 0, 0, 0, 0, 0] (by decide)⟩

/-- Claim C1, counterexample: the claim's own single-joint scenario — joint
set `[("shoulder", -1, 1)]`, current position 0.5, matching-length delta
action `[1]` — does not dispatch the clipped value 1.0: `apply_action`
rejects every action whose length is not exactly 6, so the call fails with
`ShapeMismatch` instead. -/
theorem apply_action_single_joint_rejected :
    apply_action (mkRobotConfiguration "/dev/ttyACM0" "follower" (some [])
        (some ⟨"shoulder", -1, 1, none⟩)) true
      [("shoulder.pos", 1/2)] [1] = .error (.ShapeMismatch 1) := by decide

/-- Claim C1 as amended: `RobotWrapper.apply_action` accepts only actions of
length exactly 6; for every joint ordering of at most 6 joints whose
current positions are read successfully, it dispatches for each joint i the
value `clip(current_i + action_i × (max_limit_i − min_limit_i) × gain,
min_limit_i, max_limit_i)` with the configured gain 0.25; each per-joint
value lies inside `[min_limit_i, max_limit_i]` whenever
`min_limit_i ≤ max_limit_i`, and a zero delta component yields the current
position clamped to bounds. -/
theorem apply_action_delta_formula (cfg : RobotConfiguration)
    (obs : List (String × ℚ)) (current action : List ℚ)
    (hobs : readObs obs cfg.all_joints = .ok current)
    (hlen : action.length = 6)
    (hfit : cfg.all_joints.length ≤ 6) :
    apply_action cfg true obs action =
      .ok (some (specGoalList cfg.all_joints current action)) ∧
    (∀ j ∈ cfg.all_joints, ∀ c a : ℚ, j.min_limit ≤ j.max_limit →
      j.min_limit ≤ specGoal j c a ∧ specGoal j c a ≤ j.max_limit) ∧
    (∀ (j : Joint) (c : ℚ), specGoal j c 0 = npClip c j.min_limit j.max_limit) := by
  refine ⟨?_, ?_, fun j c => specGoal_zero j c⟩
  · have hc : cfg.all_joints.length ≤ current.length := by
      rw [readObs_ok_length hobs]
    have ha : cfg.all_joints.length ≤ action.length := by
      rw [hlen]; exact hfit
    unfold apply_action getObservation
    rw [if_neg (by simp [hlen]), if_neg (by simp), if_pos rfl]
    simp only [hobs, computeGoals_eq_spec hc ha]
  · intro j _ c a h
    unfold specGoal
    exact ⟨le_npClip _ _ _ h, npClip_le_right _ _ _⟩

/-- Witness for C1 on the default six-joint configuration: current positions
all 0 except the gripper at 0.5, and a delta action moving the first joint
by its full scaled step. -/
theorem apply_action_delta_formula_witness :
    (readObs
        [("shoulder_pan.pos", (0 : ℚ)), ("shoulder_lift.pos", 0), ("elbow_flex.pos", 0),
         ("wrist_flex.pos", 0), ("wrist_roll.pos", 0), ("gripper.pos", 1/2)]
        (mkRobotConfiguration "/dev/ttyACM0" "follower" none none).all_joints =
      .ok [0, 0, 0, 0, 0, 1/2] ∧
     ([1, 0, 0, 0, 0, 0] : List ℚ).length = 6 ∧
     (mkRobotConfiguration "/dev/ttyACM0" "follower" none none).all_joints.length ≤ 6) ∧
    (apply_action (mkRobotConfiguration "/dev/ttyACM0" "follower" none none) true
        [("shoulder_pan.pos", (0 : ℚ)), ("shoulder_lift.pos", 0), ("elbow_flex.pos", 0),
         ("wrist_flex.pos", 0), ("wrist_roll.pos", 0), ("gripper.pos", 1/2)]
        [1, 0, 0, 0, 0, 0] =
      .ok (some (specGoalList (mkRobotConfiguration "/dev/ttyACM0" "follower" none none).all_joints
        [0, 0, 0, 0, 0, 1/2] [1, 0, 0, 0, 0, 0])) ∧
     (∀ j ∈ (mkRobotConfiguration "/dev/ttyACM0" "follower" none none).all_joints,
       ∀ c a : ℚ, j.min_limit ≤ j.max_limit →
         j.min_limit ≤ specGoal j c a ∧ specGoal j c a ≤ j.max_limit) ∧
     (∀ (j : Joint) (c : ℚ), specGoal j c 0 = npClip c j.min_limit j.max_limit)) :=
  ⟨⟨by rfl, by decide, by decide⟩,
   apply_action_delta_formula (mkRobotConfiguration "/dev/ttyACM0" "follower" none none)
     [("shoulder_pan.pos", (0 : ℚ)), ("shoulder_lift.pos", 0), ("elbow_flex.pos", 0),
      ("wrist_flex.pos", 0), ("wrist_roll.pos", 0), ("gripper.pos", 1/2)]
     [0, 0, 0, 0, 0, 1/2] [1, 0, 0, 0, 0, 0] (by rfl) (by decide) (by decide)⟩

/-- Claim C5, counterexample: a configuration of 5 joints (4 primary plus
the gripper) with an action vector of the agreeing length 5 still fails with
`ShapeMismatch`, because the shape check compares against the constant 6,
not against `len(joint_order)`. -/
theorem apply_action_shape_check_not_joint_length :
    (mkRobotConfiguration "/dev/ttyACM0" "follower"
        (some (defaultJoints.take 4)) none).all_joints.length = 5 ∧
    apply_action (mkRobotConfiguration "/dev/ttyACM0" "follower"
        (some (defaultJoints.take 4)) none) true []
      [0, 0, 0, 0, 0] = .error (.ShapeMismatch 5) := by decide

/-- Claim C5 as amended: `RobotWrapper.apply_action` fails with
`ShapeMismatch` exactly when the action vector's length differs from the
hard-coded constant 6 — which equals `len(all_joints)` only for
configurations with six joints, such as the default one. -/
theorem apply_action_shape_check (cfg : RobotConfiguration) (is_connected : Bool)
    (obs : List (String × ℚ)) (action : List ℚ) :
    (∃ n, apply_action cfg is_connected obs action = .error (.ShapeMismatch n)) ↔
      action.length ≠ 6 := by
  constructor
  · rintro ⟨n, hn⟩ hlen
    unfold apply_action at hn
    rw [if_neg (by simp [hlen])] at hn
    cases is_connected with
    | false => rw [if_pos rfl] at hn; cases hn
    | true =>
      rw [if_neg (by simp)] at hn
      cases hg : getObservation true obs cfg.all_joints with
      | error e =>
        simp only [hg] at hn
        injection hn with hinj
        unfold getObservation at hg
        rw [if_pos rfl] at hg
        obtain ⟨k, hk⟩ := readObs_error_is_missing hg
        rw [hk] at hinj
        cases hinj
      | ok current =>
        simp only [hg] at hn
        cases hcg : computeGoals cfg.all_joints current action with
        | error e2 =>
          simp only [hcg] at hn
          injection hn with hinj
          rw [computeGoals_error_is_overrun hcg] at hinj
          cases hinj
        | ok goals =>
          simp only [hcg] at hn
          cases hn
  · intro hlen
    exact ⟨action.length, by unfold apply_action; rw [if_pos hlen]⟩

/-- Claim C2, counterexample: `VideoHandler.get_frames` called with
`num_frames = 0` on a 3-frame buffer returns the whole buffer — the Python
slice `frame_buffer[-0:]` is the entire list — so the result is longer than
the requested count. -/
theorem get_frames_zero_returns_all :
    get_frames ([0, 1, 2] : List Frame) 0 = [0, 1, 2] ∧
    ¬ (get_frames ([0, 1, 2] : List Frame) 0).length ≤ 0 := by decide

/-- Claim C2 as amended: for every requested count `n ≥ 1`,
`VideoHandler.get_frames` returns an empty result whenever fewer than `n`
frames are buffered, and otherwise returns exactly the `n` most recent
frames — a length-`n` suffix of the buffer, in production order.  (For
`n = 0` the Python slice returns the entire buffer instead.) -/
theorem get_frames_latest (buffer : List Frame) (n : Nat) (h : 1 ≤ n) :
    (buffer.length < n → get_frames buffer n = []) ∧
    (n ≤ buffer.length →
      get_frames buffer n = buffer.drop (buffer.length - n) ∧
      (get_frames buffer n).length = n ∧
      List.IsSuffix (get_frames buffer n) buffer) := by
  unfold get_frames sliceFromEnd
  constructor
  · intro hlt
    rw [if_pos hlt]
  · intro hge
    rw [if_neg (by omega), if_neg (by omega)]
    refine ⟨rfl, ?_, List.drop_suffix _ _⟩
    rw [List.length_drop]
    omega

/-- Witness for C2: requesting 5 frames from a 3-frame buffer. -/
theorem get_frames_latest_witness :
    1 ≤ 5 ∧
    ((([0, 1, 2] : List Frame).length < 5 → get_frames ([0, 1, 2] : List Frame) 5 = []) ∧
     (5 ≤ ([0, 1, 2] : List Frame).length →
       get_frames ([0, 1, 2] : List Frame) 5 =
         ([0, 1, 2] : List Frame).drop (([0, 1, 2] : List Frame).length - 5) ∧
       (get_frames ([0, 1, 2] : List Frame) 5).length = 5 ∧
       List.IsSuffix (get_frames ([0, 1, 2] : List Frame) 5) [0, 1, 2])) :=
  ⟨by decide, get_frames_latest [0, 1, 2] 5 (by decide)⟩

/-- Claim C6: after one pass of the reaper body of
`VideoHandler._cleanup_loop`, the buffered count never exceeds the cleanup
threshold; when the pre-pass count exceeds the threshold exactly the oldest
`count − threshold` frames are dropped and the remainder is a suffix of the
previous buffer (production order preserved); otherwise the buffer is
unchanged. -/
theorem cleanup_pass_bounds {α : Type} (threshold : Nat) (buffer : List α) :
    (cleanup_pass threshold buffer).length ≤ threshold ∧
    (threshold < buffer.length →
      cleanup_pass threshold buffer = buffer.drop (buffer.length - threshold) ∧
      (cleanup_pass threshold buffer).length = threshold ∧
      List.IsSuffix (cleanup_pass threshold buffer) buffer) ∧
    (buffer.length ≤ threshold → cleanup_pass threshold buffer = buffer) := by
  refine ⟨?_, fun h => ?_, fun h => ?_⟩
  · unfold cleanup_pass
    split
    · rename_i h
      rw [List.length_drop]
      omega
    · rename_i h
      omega
  · unfold cleanup_pass
    rw [if_pos h]
    refine ⟨rfl, ?_, List.drop_suffix _ _⟩
    rw [List.length_drop]
    omega
  · unfold cleanup_pass
    rw [if_neg (by omega)]

/-- Witness for C6: a 4-frame buffer reaped with threshold 2. -/
theorem cleanup_pass_bounds_witness :
    (cleanup_pass 2 ([0, 1, 2, 3] : List Frame)).length ≤ 2 ∧
    (2 < ([0, 1, 2, 3] : List Frame).length →
      cleanup_pass 2 ([0, 1, 2, 3] : List Frame) =
        ([0, 1, 2, 3] : List Frame).drop (([0, 1, 2, 3] : List Frame).length - 2) ∧
      (cleanup_pass 2 ([0, 1, 2, 3] : List Frame)).length = 2 ∧
      List.IsSuffix (cleanup_pass 2 ([0, 1, 2, 3] : List Frame)) [0, 1, 2, 3]) ∧
    (([0, 1, 2, 3] : List Frame).length ≤ 2 →
      cleanup_pass 2 ([0, 1, 2, 3] : List Frame) = [0, 1, 2, 3]) :=
  cleanup_pass_bounds 2 [0, 1, 2, 3]

/-- Claim C7, counterexample: on the default configuration (5 primary
joints) with a raw map holding every key, the assembled observation's joint
vector has length 7, not 5 — `RobotEnvironment.get_observation` pads the
read vector with zeros to a fixed length 7, so it is not aligned 1:1 with
the configured joint ordering. -/
theorem get_observation_joint_vector_padded :
    Except.map (fun o => o.joint_position.length)
      (get_observation (mkRobotConfiguration "/dev/ttyACM0" "follower" none none) "pick"
        [("shoulder_pan.pos", (0 : ℚ)), ("shoulder_lift.pos", 0), ("elbow_flex.pos", 0),
         ("wrist_flex.pos", 0), ("wrist_roll.pos", 0), ("gripper.pos", 0)] []) = .ok 7 ∧
    (mkRobotConfiguration "/dev/ttyACM0" "follower" none none).joints.length = 5 :=
  ⟨rfl, rfl⟩

/-- Claim C7 as amended: on every control step the assembled observation
record contains the task prompt, the gripper vector obtained via `read`,
the joint vector obtained via `read` and then zero-padded on the right to
the fixed length 7 (truncated to its first 7 entries when longer), and one
frame per configured camera keyed `observation/{name}`. -/
theorem get_observation_assembly (cfg : RobotConfiguration) (prompt : String)
    (obs : List (String × ℚ)) (cameras : List (String × Frame)) (g j : List ℚ)
    (hg : readObs obs [cfg.gripper] = .ok g)
    (hj : readObs obs cfg.joints = .ok j) :
    get_observation cfg prompt obs cameras =
      .ok { prompt := prompt, gripper_position := g, joint_position := pad j 7,
            frames := cameras.map (fun nf => ("observation/" ++ nf.1, nf.2)) } ∧
    (pad j 7).length = 7 ∧
    (j.length ≤ 7 → pad j 7 = j ++ List.replicate (7 - j.length) 0) ∧
    (7 ≤ j.length → pad j 7 = j.take 7) := by
  refine ⟨?_, pad_length j 7, ?_, ?_⟩
  · unfold get_observation
    simp only [hg, hj]
  · intro h7
    unfold pad
    split
    · rename_i hge
      have hlen7 : j.length = 7 := Nat.le_antisymm h7 hge
      rw [List.take_of_length_le (by omega), hlen7]
      simp
    · rfl
  · intro h7
    unfold pad
    rw [if_pos h7]

/-- Witness for C7 on the default configuration and a fully keyed raw map. -/
theorem get_observation_assembly_witness :
    (readObs
        [("shoulder_pan.pos", (0 : ℚ)), ("shoulder_lift.pos", 0), ("elbow_flex.pos", 0),
         ("wrist_flex.pos", 0), ("wrist_roll.pos", 0), ("gripper.pos", 1/2)]
        [(mkRobotConfiguration "/dev/ttyACM0" "follower" none none).gripper] = .ok [1/2] ∧
     readObs
        [("shoulder_pan.pos", (0 : ℚ)), ("shoulder_lift.pos", 0), ("elbow_flex.pos", 0),
         ("wrist_flex.pos", 0), ("wrist_roll.pos", 0), ("gripper.pos", 1/2)]
        (mkRobotConfiguration "/dev/ttyACM0" "follower" none none).joints =
       .ok [0, 0, 0, 0, 0]) ∧
    (get_observation (mkRobotConfiguration "/dev/ttyACM0" "follower" none none) "pick"
        [("shoulder_pan.pos", (0 : ℚ)), ("shoulder_lift.pos", 0), ("elbow_flex.pos", 0),
         ("wrist_flex.pos", 0), ("wrist_roll.pos", 0), ("gripper.pos", 1/2)]
        [("wrist", 42)] =
      .ok { prompt := "pick", gripper_position := [1/2],
            joint_position := pad [0, 0, 0, 0, 0] 7,
            frames := ([("wrist", 42)] : List (String × Frame)).map
              (fun nf => ("observation/" ++ nf.1, nf.2)) } ∧
     (pad ([0, 0, 0, 0, 0] : List ℚ) 7).length = 7 ∧
     (([0, 0, 0, 0, 0] : List ℚ).length ≤ 7 →
       pad ([0, 0, 0, 0, 0] : List ℚ) 7 =
         [0, 0, 0, 0, 0] ++ List.replicate (7 - ([0, 0, 0, 0, 0] : List ℚ).length) 0) ∧
     (7 ≤ ([0, 0, 0, 0, 0] : List ℚ).length →
       pad ([0, 0, 0, 0, 0] : List ℚ) 7 = ([0, 0, 0, 0, 0] : List ℚ).take 7)) :=
  ⟨⟨by rfl, by rfl⟩,
   get_observation_assembly (mkRobotConfiguration "/dev/ttyACM0" "follower" none none) "pick"
     [("shoulder_pan.pos", (0 : ℚ)), ("shoulder_lift.pos", 0), ("elbow_flex.pos", 0),
      ("wrist_flex.pos", 0), ("wrist_roll.pos", 0), ("gripper.pos", 1/2)]
     [("wrist", 42)] [1/2] [0, 0, 0, 0, 0] (by rfl) (by rfl)⟩

/-- Claim C8: `write_absolute` (modelled from the spec; absent from the
sources) clips each component to its descriptor's
`[min_limit, max_limit]` — producing that joint's name for each entry, a
value inside the bounds whenever `min_limit ≤ max_limit`, and exactly the
input value for every component already within bounds. -/
theorem write_absolute_clips (action : List ℚ) (joint_order : List Joint)
    (hlen : action.length = joint_order.length) :
    ∃ m, write_absolute action joint_order = .ok m ∧ m.length = joint_order.length ∧
      ∀ (i : Nat) (hi : i < joint_order.length) (ha : i < action.length) (hm : i < m.length),
        (m.get ⟨i, hm⟩).1 = (joint_order.get ⟨i, hi⟩).name ∧
        ((joint_order.get ⟨i, hi⟩).min_limit ≤ (joint_order.get ⟨i, hi⟩).max_limit →
          (joint_order.get ⟨i, hi⟩).min_limit ≤ (m.get ⟨i, hm⟩).2 ∧
          (m.get ⟨i, hm⟩).2 ≤ (joint_order.get ⟨i, hi⟩).max_limit) ∧
        ((joint_order.get ⟨i, hi⟩).min_limit ≤ action.get ⟨i, ha⟩ →
          action.get ⟨i, ha⟩ ≤ (joint_order.get ⟨i, hi⟩).max_limit →
          (m.get ⟨i, hm⟩).2 = action.get ⟨i, ha⟩) := by
  have hok : write_absolute action joint_order =
      .ok (List.zipWith
        (fun (a : ℚ) (j : Joint) => (j.name, npClip a j.min_limit j.max_limit))
        action joint_order) := by
    unfold write_absolute
    rw [if_neg (by simp [hlen])]
  refine ⟨_, hok, ?_, ?_⟩
  · rw [List.length_zipWith, hlen, Nat.min_self]
  · intro i hi ha hm
    rw [zipWith_get _ action joint_order i ha hi hm]
    exact ⟨rfl, fun hmm => ⟨le_npClip _ _ _ hmm, npClip_le_right _ _ _⟩,
      fun h1 h2 => npClip_of_mem _ _ _ h1 h2⟩

/-- Witness for C8: an out-of-range component is clipped to the bound, an
in-range component is returned unchanged. -/
theorem write_absolute_clips_witness :
    ([5, 1/2] : List ℚ).length = ([⟨"a", -1, 1, none⟩, ⟨"b", 0, 2, none⟩] : List Joint).length ∧
    (∃ m, write_absolute [5, 1/2] [⟨"a", -1, 1, none⟩, ⟨"b", 0, 2, none⟩] = .ok m ∧
      m.length = ([⟨"a", -1, 1, none⟩, ⟨"b", 0, 2, none⟩] : List Joint).length ∧
      ∀ (i : Nat) (hi : i < ([⟨"a", -1, 1, none⟩, ⟨"b", 0, 2, none⟩] : List Joint).length)
        (ha : i < ([5, 1/2] : List ℚ).length) (hm : i < m.length),
        (m.get ⟨i, hm⟩).1 =
          (([⟨"a", -1, 1, none⟩, ⟨"b", 0, 2, none⟩] : List Joint).get ⟨i, hi⟩).name ∧
        ((([⟨"a", -1, 1, none⟩, ⟨"b", 0, 2, none⟩] : List Joint).get ⟨i, hi⟩).min_limit ≤
            (([⟨"a", -1, 1, none⟩, ⟨"b", 0, 2, none⟩] : List Joint).get ⟨i, hi⟩).max_limit →
          (([⟨"a", -1, 1, none⟩, ⟨"b", 0, 2, none⟩] : List Joint).get ⟨i, hi⟩).min_limit ≤
            (m.get ⟨i, hm⟩).2 ∧
          (m.get ⟨i, hm⟩).2 ≤
            (([⟨"a", -1, 1, none⟩, ⟨"b", 0, 2, none⟩] : List Joint).get ⟨i, hi⟩).max_limit) ∧
        ((([⟨"a", -1, 1, none⟩, ⟨"b", 0, 2, none⟩] : List Joint).get ⟨i, hi⟩).min_limit ≤
            ([5, 1/2] : List ℚ).get ⟨i, ha⟩ →
          ([5, 1/2] : List ℚ).get ⟨i, ha⟩ ≤
            (([⟨"a", -1, 1, none⟩, ⟨"b", 0, 2, none⟩] : List Joint).get ⟨i, hi⟩).max_limit →
          (m.get ⟨i, hm⟩).2 = ([5, 1/2] : List ℚ).get ⟨i, ha⟩)) :=
  ⟨by decide, write_absolute_clips [5, 1/2] [⟨"a", -1, 1, none⟩, ⟨"b", 0, 2, none⟩] (by decide)⟩

/-- Claim C9, counterexample: `RobotConfiguration` construction
(`__post_init__`) performs no validation — a configuration whose two primary
joints share the name "a" and have `min_limit = 1 > 0 = max_limit` is
constructed successfully, and the resulting `all_joints` violates both
claimed invariants. -/
theorem robot_configuration_accepts_invalid :
    (mkRobotConfiguration "/dev/ttyACM0" "follower"
        (some [⟨"a", 1, 0, none⟩, ⟨"a", 1, 0, none⟩]) none).all_joints =
      [⟨"a", 1, 0, none⟩, ⟨"a", 1, 0, none⟩, defaultGripper] ∧
    ¬ ((mkRobotConfiguration "/dev/ttyACM0" "follower"
        (some [⟨"a", 1, 0, none⟩, ⟨"a", 1, 0, none⟩]) none).all_joints.map Joint.name).Nodup ∧
    ∃ j ∈ (mkRobotConfiguration "/dev/ttyACM0" "follower"
        (some [⟨"a", 1, 0, none⟩, ⟨"a", 1, 0, none⟩]) none).all_joints,
      j.max_limit < j.min_limit := by
  refine ⟨rfl, by decide, ⟨⟨"a", 1, 0, none⟩, by decide, by norm_num⟩⟩

/-- Claim C9 as amended: `RobotConfiguration.__post_init__` performs no
validation of the joint data; it only substitutes the default joints and
gripper for `None` fields and derives `all_joints = joints + [gripper]`, so
construction always succeeds and the no-duplicate-names and
`min_limit ≤ max_limit` invariants hold only when the input already
satisfies them. -/
theorem mkRobotConfiguration_no_validation (port id : String) (js : List Joint) (g : Joint) :
    mkRobotConfiguration port id (some js) (some g) =
      { port := port, id := id, joints := js, gripper := g, all_joints := js ++ [g] } ∧
    mkRobotConfiguration port id none none =
      { port := port, id := id, joints := defaultJoints, gripper := defaultGripper,
        all_joints := defaultJoints ++ [defaultGripper] } :=
  ⟨rfl, rfl⟩

end Leopenpi
